import Mathlib

/-!
Verification of the device pairing and telemetry-synchronization subsystem
of the family-tracker frontend.

The TypeScript/React-Native source is shallowly embedded as pure Lean
functions.  Strings are modelled as `List Char` (`Str`); JavaScript
truthiness on `string | null` values (`if (!x)`, `x || d`) is modelled
explicitly; the effectful parts (AsyncStorage, permission requests, HTTP
posts, the OS task registry) are modelled by explicit environment records,
an explicit local-store record, and a trace of emitted network/log events.
`await`-sequenced statements become list concatenation of the corresponding
event traces, which is faithful to the source's single-threaded sequential
execution.  UI alerts are not part of the event trace; the outcome values
(`SyncResult`, `StartResult`, `RegOutcome`) record which terminal path the
source takes.
-/

namespace Frontend

/-- Strings, modelled as character lists. -/
abbrev Str := List Char

/-- The permission status string the source compares against
(`status !== 'granted'`). -/
def grantedStatus : Str := "granted".data

/-- JavaScript truthiness of a `string | null` value: `null` and the empty
string are falsy (`if (!x)`). -/
def falsyStr (v : Option Str) : Bool :=
  match v with
  | none => true
  | some s => s.isEmpty

/-- JavaScript `x || d` on a `string | undefined` value: `undefined` and the
empty string fall through to the default. -/
def jsOrStr (v : Option Str) (d : Str) : Str :=
  match v with
  | none => d
  | some s => if s.isEmpty then d else s

/-! ## PairingCodeDeriver (src/app/parent/pair-device.tsx, generatePairingCode) -/

/-- JavaScript `s.slice(-6)`: the substring starting at `max(0, length-6)`;
`Nat` subtraction truncates at `0` exactly as the JS clamp does. -/
def jsSliceLast6 (s : Str) : Str := s.drop (s.length - 6)

/-- JavaScript `s.toUpperCase()`, character-wise upper-casing. -/
def toUpperChars (s : Str) : Str := s.map Char.toUpper

/-- The pairing-code derivation applied to a present, non-empty device id:
`id.slice(-6).toUpperCase()`. -/
def pairingCodeOfId (id : Str) : Str := toUpperChars (jsSliceLast6 id)

/-- The source's `generatePairingCode`: the stored `device_id` is read
from AsyncStorage; `const code = id ? id.slice(-6).toUpperCase() : '000000'`. -/
def generatePairingCode (stored : Option Str) : Str :=
  match stored with
  | none => "000000".data
  | some id => if id.isEmpty then "000000".data else pairingCodeOfId id

/-- The device identifier generated at registration
(src/unnamed/part_003, handleRegister):
`` `device_${Date.now()}_${Math.random().toString(36).substr(2, 9)}` ``,
with the timestamp digits and the random suffix left abstract. -/
def jsGeneratedDeviceId (now rand : Str) : Str :=
  "device_".data ++ now ++ "_".data ++ rand

theorem pairingCode_length_of_six_le (d : Str) (h : 6 ≤ d.length) :
    (pairingCodeOfId d).length = 6 := by
  unfold pairingCodeOfId toUpperChars jsSliceLast6
  rw [List.length_map, List.length_drop]
  omega

theorem pairingCode_suffix (d : Str) :
    ∃ pre, toUpperChars d = pre ++ pairingCodeOfId d := by
  refine ⟨toUpperChars (d.take (d.length - 6)), ?_⟩
  have hsplit : d.take (d.length - 6) ++ d.drop (d.length - 6) = d :=
    List.take_append_drop _ d
  calc toUpperChars d
      = toUpperChars (d.take (d.length - 6) ++ d.drop (d.length - 6)) := by
        rw [hsplit]
    _ = toUpperChars (d.take (d.length - 6)) ++ toUpperChars (d.drop (d.length - 6)) := by
        simp [toUpperChars]
    _ = toUpperChars (d.take (d.length - 6)) ++ pairingCodeOfId d := rfl

theorem generatedDeviceId_length (now rand : Str) :
    6 ≤ (jsGeneratedDeviceId now rand).length := by
  simp [jsGeneratedDeviceId]

/-- Claim C3 counterexample: deriving the pairing code from the device
identifier `device_1700000000_abc123xyz` by the source's rule
(`id.slice(-6).toUpperCase()`) does not yield `BC123X`. -/
theorem c3_counterexample :
    generatePairingCode (some "device_1700000000_abc123xyz".data) ≠ "BC123X".data := by
  decide

/-- Claim C3 (amended): deriving the pairing code from the device identifier
`device_1700000000_abc123xyz` (last 6 characters, upper-cased) yields the
literal code `123XYZ`, not `BC123X`. -/
theorem c3_amended_pairing_code_literal :
    generatePairingCode (some "device_1700000000_abc123xyz".data) = "123XYZ".data := by
  decide

/-- Claim C4: for every device identifier of the generated form
`device_<timestamp>_<suffix>`, the pairing-code derivation is a pure total
Lean function of the identifier alone (hence deterministic across calls and
restarts, with no I/O and no failure mode), returns a six-character code,
and that code is the trailing six characters of the identifier upper-cased
(the upper-cased identifier ends in the code). -/
theorem c4_derive_deterministic_six_chars (now rand : Str) :
    (pairingCodeOfId (jsGeneratedDeviceId now rand)).length = 6 ∧
    (∃ pre, toUpperChars (jsGeneratedDeviceId now rand)
        = pre ++ pairingCodeOfId (jsGeneratedDeviceId now rand)) ∧
    generatePairingCode (some (jsGeneratedDeviceId now rand))
        = pairingCodeOfId (jsGeneratedDeviceId now rand) := by
  refine ⟨pairingCode_length_of_six_le _ (generatedDeviceId_length now rand),
    pairingCode_suffix _, ?_⟩
  have hne : (jsGeneratedDeviceId now rand).isEmpty = false := by
    have := generatedDeviceId_length now rand
    cases hd : jsGeneratedDeviceId now rand with
    | nil => rw [hd] at this; simp at this
    | cons a l => simp
  simp [generatePairingCode, hne]

/-! ## SyncPipeline (src/unnamed/part_000)

Each domain sync is a pure function from the capability environment to the
list of network/log events it emits; the `try/catch` wrapping each domain in
the source means a domain never propagates an exception, it only appends a
`console.error` log event.  HTTP posts are recorded as events carrying the
exact request body the source builds. -/

/-- An OS contact as returned by `Contacts.getContactsAsync`; `name`, the
`phoneNumbers` array, the `emails` array, and each entry's `number`/`email`
field may be absent. -/
structure OSContact where
  id : Str
  name : Option Str
  phoneNumbers : Option (List (Option Str))
  emails : Option (List (Option Str))
deriving DecidableEq

/-- The wire record built for one contact in `syncContacts`. -/
structure WireContact where
  id : Str
  name : Str
  phoneNumbers : List Str
  emails : List Str
deriving DecidableEq

/-- The contact mapping in `syncContacts`:
`name: contact.name || 'Unknown'`,
`phoneNumbers: contact.phoneNumbers?.map((p) => p.number || '') || []`,
`emails: contact.emails?.map((e) => e.email || '') || []`. -/
def mapContact (c : OSContact) : WireContact :=
  { id := c.id
    name := jsOrStr c.name "Unknown".data
    phoneNumbers :=
      match c.phoneNumbers with
      | none => []
      | some l => l.map (fun p => jsOrStr p [])
    emails :=
      match c.emails with
      | none => []
      | some l => l.map (fun e => jsOrStr e []) }

/-- A media asset as returned by `MediaLibrary.getAssetsAsync`; coordinates
are modelled as rationals (JS numbers, NaN and infinities not modelled). -/
structure MediaAsset where
  id : Str
  filename : Str
  mediaType : Str
  creationTime : Int
  modificationTime : Int
  width : Int
  height : Int
  duration : ℚ
  assetGeotag : Option (ℚ × ℚ)
deriving DecidableEq

/-- The wire record built for one asset in `syncGalleryMetadata`. -/
structure WireMedia where
  id : Str
  filename : Str
  mediaType : Str
  creationTime : Int
  modificationTime : Int
  width : Int
  height : Int
  duration : ℚ
  geotag : Option (ℚ × ℚ)
deriving DecidableEq

/-- The asset mapping in `syncGalleryMetadata`; the geotag is embedded as
`{latitude, longitude}` when the asset has one, else `null`. -/
def mapAsset (a : MediaAsset) : WireMedia :=
  { id := a.id
    filename := a.filename
    mediaType := a.mediaType
    creationTime := a.creationTime
    modificationTime := a.modificationTime
    width := a.width
    height := a.height
    duration := a.duration
    geotag := a.assetGeotag }

/-- A position fix (`location.coords`) from `getCurrentPositionAsync` or a
background firing; `accuracy`, `speed`, `heading` may be `null`. -/
structure Coords where
  latitude : ℚ
  longitude : ℚ
  accuracy : Option ℚ
  speed : Option ℚ
  heading : Option ℚ
deriving DecidableEq

/-- The request body of `POST /api/locations`. -/
structure LocationBody where
  device_id : Str
  latitude : ℚ
  longitude : ℚ
  accuracy : Option ℚ
  speed : Option ℚ
  heading : Option ℚ
deriving DecidableEq

/-- An observable effect of the pipeline: an HTTP post carrying its request
body, or a `console.error` log at a catch boundary (tagged by which handler
logged it). -/
inductive SyncEvent
  | contactsPost (device_id : Str) (contacts : List WireContact)
  | mediaPost (device_id : Str) (media_items : List WireMedia)
  | locationPost (body : LocationBody)
  | errorLog (tag : Str)
deriving DecidableEq

/-- The capability environment one `syncAllData` call runs against: the
persisted `device_id`, the current permission statuses, what the OS
providers would return, and whether each HTTP post succeeds. -/
structure SyncEnv where
  storedDeviceId : Option Str
  contactsPermStatus : Str
  contactsData : List OSContact
  contactsUploadOk : Bool
  mediaPermStatus : Str
  mediaAssets : List MediaAsset
  mediaUploadOk : Bool
  currentFix : Option Coords
  locationUploadOk : Bool

/-- The domain sync `syncContacts(deviceId)`: skips (no events) unless the contacts
permission status is `granted`; otherwise posts the full mapped contact list
as one batch; a rejected post is caught in this function and logged. -/
def syncContacts (env : SyncEnv) (deviceId : Str) : List SyncEvent :=
  if env.contactsPermStatus = grantedStatus then
    SyncEvent.contactsPost deviceId (env.contactsData.map mapContact) ::
      (if env.contactsUploadOk then [] else [SyncEvent.errorLog "contacts".data])
  else []

/-- The domain sync `syncGalleryMetadata(deviceId)`: skips unless the media-library
permission status is `granted`; otherwise posts the mapped asset list (the
up-to-1000 most recent assets the OS enumerator returned) as one batch;
a rejected post is caught here and logged. -/
def syncGalleryMetadata (env : SyncEnv) (deviceId : Str) : List SyncEvent :=
  if env.mediaPermStatus = grantedStatus then
    SyncEvent.mediaPost deviceId (env.mediaAssets.map mapAsset) ::
      (if env.mediaUploadOk then [] else [SyncEvent.errorLog "media".data])
  else []

/-- The domain sync `syncCurrentLocation(deviceId)`: if `getCurrentPositionAsync` produces a
fix, posts one location sample; if the OS declines a fix or the post is
rejected, the error is caught in this function and logged. -/
def syncCurrentLocation (env : SyncEnv) (deviceId : Str) : List SyncEvent :=
  match env.currentFix with
  | none => [SyncEvent.errorLog "location".data]
  | some c =>
      SyncEvent.locationPost
          ⟨deviceId, c.latitude, c.longitude, c.accuracy, c.speed, c.heading⟩ ::
        (if env.locationUploadOk then [] else [SyncEvent.errorLog "location".data])

/-- The terminal path `syncAllData` takes: early return because no device id
is persisted (`if (!deviceId) return`), or the success path (`setLastSync` +
success alert).  The source has no other outcome: every domain failure is
caught inside that domain. -/
inductive SyncResult
  | noDeviceId
  | success
deriving DecidableEq

/-- The pipeline entry `syncAllData`: reads the persisted device id; full no-op when it is
absent; otherwise awaits the three domain syncs in source order
(contacts, then media, then location) and reports success. -/
def syncAllData (env : SyncEnv) : SyncResult × List SyncEvent :=
  match env.storedDeviceId with
  | none => (SyncResult.noDeviceId, [])
  | some id =>
      if id.isEmpty then (SyncResult.noDeviceId, [])
      else
        (SyncResult.success,
         syncContacts env id ++ syncGalleryMetadata env id ++ syncCurrentLocation env id)

/-! ## TrackingController (src/unnamed/part_000: requestPermissions,
startTracking, stopTracking, checkTrackingStatus) -/

/-- The terminal path `startTracking` takes: `denied` when
`requestPermissions` returned false (a location permission was refused),
`failed` when `startLocationUpdatesAsync` threw, `ok` otherwise. -/
inductive StartResult
  | denied
  | failed
  | ok
deriving DecidableEq

/-- The status view derived from `TaskManager.isTaskRegisteredAsync`
(`checkTrackingStatus`). -/
inductive TrackStatus
  | active
  | unregistered
deriving DecidableEq

def trackingStatus (osRegistered : Bool) : TrackStatus :=
  if osRegistered then TrackStatus.active else TrackStatus.unregistered

/-- The environment one `startTracking` call runs against: the outcomes of
the four permission requests, whether `startLocationUpdatesAsync` succeeds,
and the environment the initial `syncAllData` pass would see. -/
structure StartEnv where
  fgStatus : Str
  bgStatus : Str
  contactsReqStatus : Str
  mediaReqStatus : Str
  registrationOk : Bool
  sync : SyncEnv

/-- The gate `requestPermissions`: false as soon as the foreground or the background
location permission is refused; the contacts and media requests are then
issued but their refusal only raises an alert (not modelled in the return
value, exactly as in the source) and never makes the function return
false. -/
def requestPermissions (env : StartEnv) : Bool :=
  if env.fgStatus = grantedStatus then
    if env.bgStatus = grantedStatus then true else false
  else false

/-- The result of a `startTracking` call: the terminal path taken, the OS
task-registry state afterwards, and the events emitted by the initial sync
pass. -/
structure StartOutcome where
  result : StartResult
  registered : Bool
  trace : List SyncEvent
deriving DecidableEq

/-- The operation `startTracking`, from an OS task-registry state `registered`: aborts
when `requestPermissions` fails; otherwise registers the background task
(`startLocationUpdatesAsync`; when it throws, the state is unchanged and no
sync runs) and on success immediately runs one `syncAllData` pass. -/
def startTracking (env : StartEnv) (registered : Bool) : StartOutcome :=
  if requestPermissions env then
    if env.registrationOk then
      ⟨StartResult.ok, true, (syncAllData env.sync).2⟩
    else ⟨StartResult.failed, registered, []⟩
  else ⟨StartResult.denied, registered, []⟩

/-- Running `start()` followed immediately by `status()`. -/
def startThenStatus (env : StartEnv) (registered : Bool) : StartResult × TrackStatus :=
  let o := startTracking env registered
  (o.result, trackingStatus o.registered)

/-! ## Background firing handler (src/unnamed/part_000,
TaskManager.defineTask) -/

/-- What one background firing sees: the `error`/`data` arguments the OS
passes, the persisted device id, and whether the location post succeeds. -/
structure BgEnv where
  hasError : Bool
  fixes : Option (List Coords)
  storedDeviceId : Option Str
  uploadOk : Bool

/-- The background task handler: logs and returns on an OS error; does
nothing when `data` is absent; otherwise takes the first fix of the batch,
reads the persisted device id, silently returns when none is persisted, and
posts a single location sample (upload failures, and the `TypeError` from an
empty fix batch, are caught and logged). -/
def backgroundTask (env : BgEnv) : List SyncEvent :=
  if env.hasError then [SyncEvent.errorLog "background-error".data]
  else
    match env.fixes with
    | none => []
    | some fixes =>
        if falsyStr env.storedDeviceId then []
        else
          match fixes.head? with
          | none => [SyncEvent.errorLog "background-upload".data]
          | some c =>
              if env.uploadOk then
                [SyncEvent.locationPost
                  ⟨(env.storedDeviceId.getD []), c.latitude, c.longitude,
                   c.accuracy, c.speed, c.heading⟩]
              else [SyncEvent.errorLog "background-upload".data]

/-! ## DeviceIdentity / registration (src/unnamed/part_003, handleRegister) -/

inductive Mode
  | parent
  | child
deriving DecidableEq

/-- The mode string sent on the wire (`'parent' | 'child'`). -/
def modeStr : Mode → Str
  | Mode.parent => "parent".data
  | Mode.child => "child".data

/-- JavaScript `s.trim()`: strip leading and trailing whitespace. -/
def jsTrim (s : Str) : Str :=
  ((s.dropWhile Char.isWhitespace).reverse.dropWhile Char.isWhitespace).reverse

/-- The persisted AsyncStorage keys this screen touches. -/
structure LocalStore where
  device_id : Option Str
  device_mode : Option Str
  device_name : Option Str
  parent_device_id : Option Str
deriving DecidableEq

/-- The request body of `POST /api/devices/register`. -/
structure RegisterBody where
  device_id : Str
  device_name : Str
  mode : Str
  parent_device_id : Option Str
deriving DecidableEq

/-- What one `handleRegister` call runs against: the form inputs, the
timestamp/random material a fresh id would be built from, and whether the
backend call returns ok. -/
structure RegEnv where
  selectedMode : Option Mode
  deviceName : Str
  parentDeviceId : Str
  now : Str
  rand : Str
  registerOk : Bool

/-- The terminal path `handleRegister` takes: an input-validation alert, the
catch branch (registration failed), or the success path. -/
inductive RegOutcome
  | invalid
  | failure
  | success
deriving DecidableEq

/-- The result of a `handleRegister` call: the path taken, the local store
afterwards, and the register request that was issued, if any. -/
structure RegResult where
  outcome : RegOutcome
  store : LocalStore
  request : Option RegisterBody
deriving DecidableEq

/-- The device id a `handleRegister` call uses: the persisted one when
present and non-empty (`if (!deviceId)`), else a freshly generated
`device_<now>_<rand>`. -/
def chosenDeviceId (env : RegEnv) (st : LocalStore) : Str :=
  match st.device_id with
  | none => jsGeneratedDeviceId env.now env.rand
  | some id => if id.isEmpty then jsGeneratedDeviceId env.now env.rand else id

/-- The setup operation `handleRegister`: validates the inputs; ensures a persisted device id
(generating and persisting one first when absent — the source's
`setItem('device_id', ...)` runs only in that branch, but the resulting
store is `device_id := some (chosenDeviceId ...)` either way); posts
`/api/devices/register`; a non-ok response throws into the catch, leaving
`device_mode`/`device_name`/`parent_device_id` untouched; only on success
are they persisted. -/
def handleRegister (env : RegEnv) (st : LocalStore) : RegResult :=
  match env.selectedMode with
  | none => ⟨RegOutcome.invalid, st, none⟩
  | some m =>
      if (jsTrim env.deviceName).isEmpty then ⟨RegOutcome.invalid, st, none⟩
      else if m = Mode.child ∧ (jsTrim env.parentDeviceId).isEmpty then
        ⟨RegOutcome.invalid, st, none⟩
      else
        let deviceId := chosenDeviceId env st
        let st1 : LocalStore := { st with device_id := some deviceId }
        let body : RegisterBody :=
          ⟨deviceId, env.deviceName, modeStr m,
           if m = Mode.child then some (jsTrim env.parentDeviceId) else none⟩
        if env.registerOk then
          ⟨RegOutcome.success,
           { st1 with
               device_mode := some (modeStr m)
               device_name := some env.deviceName
               parent_device_id :=
                 if m = Mode.child then some (jsTrim env.parentDeviceId)
                 else st1.parent_device_id },
           some body⟩
        else ⟨RegOutcome.failure, st1, some body⟩

/-! ## Parent gallery views (src/unnamed/part_002, getSortedMedia) -/

/-- One media item of the fetched snapshot; optional numeric fields are
absent or a number (coordinates as rationals; NaN not modelled). -/
structure MediaItem where
  media_id : Str
  filename : Str
  media_type : Str
  creation_time : Option Int
  width : Option Int
  height : Option Int
  duration : Option ℚ
  location_latitude : Option ℚ
  location_longitude : Option ℚ
deriving DecidableEq

/-- The two values of the `sortBy` toggle. -/
inductive SortMode
  | date
  | location
deriving DecidableEq

/-- JavaScript truthiness of a `number | undefined` value: `undefined` and
`0` are falsy. -/
def truthyNum (v : Option ℚ) : Bool :=
  match v with
  | none => false
  | some x => x ≠ 0

/-- The sort key `a.creation_time || 0` (absent, like `0` itself, counts
as `0`). -/
def mediaSortKey (a : MediaItem) : Int := a.creation_time.getD 0

/-- The geotag filter `item.location_latitude && item.location_longitude`. -/
def hasGeotag (i : MediaItem) : Bool :=
  truthyNum i.location_latitude && truthyNum i.location_longitude

/-- The view selector `getSortedMedia`: in `date` mode, a copy of the snapshot sorted by
`timeB - timeA` (most recent first, stable as required of `Array.sort`);
in `location` mode, a copy filtered by coordinate truthiness, in snapshot
order. -/
def getSortedMedia (media : List MediaItem) (sortBy : SortMode) : List MediaItem :=
  match sortBy with
  | SortMode.date => media.mergeSort (fun a b => mediaSortKey b ≤ mediaSortKey a)
  | SortMode.location => media.filter hasGeotag

/-! ## Shared helper lemmas -/

theorem generatedDeviceId_not_empty (now rand : Str) :
    (jsGeneratedDeviceId now rand).isEmpty = false := by
  have h6 := generatedDeviceId_length now rand
  cases h : jsGeneratedDeviceId now rand with
  | nil => rw [h] at h6; simp at h6
  | cons a l => simp

/-- The contacts batches carried by a trace, with their target device id. -/
def contactBatches (t : List SyncEvent) : List (Str × List WireContact) :=
  t.filterMap (fun e =>
    match e with
    | SyncEvent.contactsPost d b => some (d, b)
    | _ => none)

/-- The sync domain an event belongs to, in pipeline order:
contacts = 0, media = 1, location = 2. -/
def eventDomain : SyncEvent → Nat
  | SyncEvent.contactsPost _ _ => 0
  | SyncEvent.mediaPost _ _ => 1
  | SyncEvent.locationPost _ => 2
  | SyncEvent.errorLog tag =>
      if tag = "contacts".data then 0 else if tag = "media".data then 1 else 2

theorem syncContacts_domain (env : SyncEnv) (id : Str) :
    ∀ e ∈ syncContacts env id, eventDomain e = 0 := by
  intro e he
  by_cases hp : env.contactsPermStatus = grantedStatus
  · simp [syncContacts, hp] at he
    cases hu : env.contactsUploadOk <;> rw [hu] at he <;> simp at he
    · rcases he with h | h <;> subst h <;> simp [eventDomain]
    · subst he; simp [eventDomain]
  · simp [syncContacts, hp] at he

theorem syncGalleryMetadata_domain (env : SyncEnv) (id : Str) :
    ∀ e ∈ syncGalleryMetadata env id, eventDomain e = 1 := by
  intro e he
  by_cases hp : env.mediaPermStatus = grantedStatus
  · simp [syncGalleryMetadata, hp] at he
    cases hu : env.mediaUploadOk <;> rw [hu] at he <;> simp at he
    · rcases he with h | h <;> subst h <;> simp [eventDomain]
    · subst he; simp [eventDomain]
  · simp [syncGalleryMetadata, hp] at he

theorem syncCurrentLocation_domain (env : SyncEnv) (id : Str) :
    ∀ e ∈ syncCurrentLocation env id, eventDomain e = 2 := by
  intro e he
  cases hf : env.currentFix with
  | none =>
      simp [syncCurrentLocation, hf] at he
      subst he; simp [eventDomain]
  | some c =>
      simp [syncCurrentLocation, hf] at he
      cases hu : env.locationUploadOk <;> rw [hu] at he <;> simp at he
      · rcases he with h | h <;> subst h <;> simp [eventDomain]
      · subst he; simp [eventDomain]

theorem pairwise_le_of_const {α : Type} (f : α → Nat) (d : Nat) (l : List α)
    (h : ∀ x ∈ l, f x = d) : l.Pairwise (fun a b => f a ≤ f b) := by
  induction l with
  | nil => simp
  | cons a t ih =>
      refine List.Pairwise.cons (fun b hb => ?_) (ih ?_)
      · rw [h a (List.mem_cons_self a t), h b (List.mem_cons_of_mem _ hb)]
      · exact fun x hx => h x (List.mem_cons_of_mem _ hx)

theorem syncAllData_run (env : SyncEnv) (id : Str)
    (hid : env.storedDeviceId = some id) (hne : id.isEmpty = false) :
    syncAllData env =
      (SyncResult.success,
       syncContacts env id ++ syncGalleryMetadata env id ++ syncCurrentLocation env id) := by
  simp [syncAllData, hid, hne]

/-! ## Claim C1 -/

/-- A run with a persisted device id in which the contacts upload fails on
the transport while the sibling domains succeed. -/
def c1_envFail : SyncEnv :=
  { storedDeviceId := some "dev1".data
    contactsPermStatus := grantedStatus
    contactsData := [⟨"c1".data, some "Alice".data, some [some "123".data], some []⟩]
    contactsUploadOk := false
    mediaPermStatus := grantedStatus
    mediaAssets := []
    mediaUploadOk := true
    currentFix := some ⟨1, 2, none, none, none⟩
    locationUploadOk := true }

/-- Claim C1 counterexample: on a run whose contacts domain suffers a
transport failure (the failed-domain set is non-empty, witnessed by the
caught-and-logged error event), `syncAllData` still takes the same success
path as the all-success run — the result is not `PartialFailure` and carries
no failed-domain list. -/
theorem c1_counterexample :
    (syncAllData c1_envFail).1 = SyncResult.success ∧
    SyncEvent.errorLog "contacts".data ∈ (syncAllData c1_envFail).2 ∧
    (syncAllData { c1_envFail with contactsUploadOk := true }).1 = (syncAllData c1_envFail).1 := by
  decide

/-- Claim C1 (amended): for every persisted device id, `syncAllData` runs
the three domain syncs and always reports overall success; it returns no
failed-domain list.  A transport failure inside one domain is caught and
logged at that domain's boundary only, and never prevents the sibling
domains from running or from issuing their own uploads. -/
theorem c1_amended_failure_isolation (env : SyncEnv) (id : Str)
    (hid : env.storedDeviceId = some id) (hne : id.isEmpty = false) :
    (syncAllData env).1 = SyncResult.success ∧
    (syncAllData env).2 =
      syncContacts env id ++ syncGalleryMetadata env id ++ syncCurrentLocation env id ∧
    (env.contactsPermStatus = grantedStatus → env.contactsUploadOk = false →
      SyncEvent.errorLog "contacts".data ∈ (syncAllData env).2) ∧
    (env.mediaPermStatus = grantedStatus →
      SyncEvent.mediaPost id (env.mediaAssets.map mapAsset) ∈ (syncAllData env).2) ∧
    (∀ c, env.currentFix = some c →
      SyncEvent.locationPost ⟨id, c.latitude, c.longitude, c.accuracy, c.speed, c.heading⟩
        ∈ (syncAllData env).2) := by
  have hall := syncAllData_run env id hid hne
  refine ⟨by rw [hall], by rw [hall], ?_, ?_, ?_⟩
  · intro hp hf
    rw [hall]
    simp only [List.mem_append]
    refine Or.inl (Or.inl ?_)
    simp [syncContacts, hp, hf]
  · intro hp
    rw [hall]
    simp only [List.mem_append]
    refine Or.inl (Or.inr ?_)
    simp [syncGalleryMetadata, hp]
  · intro c hc
    rw [hall]
    simp only [List.mem_append]
    refine Or.inr ?_
    simp [syncCurrentLocation, hc]

/-- Claim C1 witness: the amended theorem at the concrete failing run. -/
theorem c1_witness :
    (syncAllData c1_envFail).1 = SyncResult.success ∧
    SyncEvent.mediaPost "dev1".data [] ∈ (syncAllData c1_envFail).2 := by
  have h := c1_amended_failure_isolation c1_envFail "dev1".data rfl (by decide)
  exact ⟨h.1, by simpa using h.2.2.2.1 rfl⟩

/-! ## Claim C2 -/

/-- A sync environment with nothing persisted and nothing granted, used for
concrete tracking-controller runs. -/
def quietSync : SyncEnv :=
  ⟨none, [], [], true, [], [], true, none, true⟩

/-- Claim C2 counterexample: both location permissions granted, but the
background-task registration call throws (`startLocationUpdatesAsync`'s
catch branch): `start()` followed by `status()` yields `Unregistered`, so
`Active` does not hold if and only if both permissions were granted. -/
theorem c2_counterexample :
    let env : StartEnv :=
      ⟨grantedStatus, grantedStatus, grantedStatus, grantedStatus, false, quietSync⟩
    env.fgStatus = grantedStatus ∧ env.bgStatus = grantedStatus ∧
    (startThenStatus env false).2 = TrackStatus.unregistered := by
  decide

/-- Claim C2 (amended): `start()` from the unregistered state followed
immediately by `status()` yields `Active` iff both location permissions
were granted and the task-registration call succeeded; if either permission
is refused, `start()` returns `denied`, performs no further action (no task
registered, no sync events), and `status()` yields `Unregistered`. -/
theorem c2_amended_start_then_status (env : StartEnv) :
    ((startThenStatus env false).2 = TrackStatus.active ↔
      (env.fgStatus = grantedStatus ∧ env.bgStatus = grantedStatus ∧
        env.registrationOk = true)) ∧
    (¬(env.fgStatus = grantedStatus ∧ env.bgStatus = grantedStatus) →
      (startThenStatus env false).1 = StartResult.denied ∧
      (startThenStatus env false).2 = TrackStatus.unregistered ∧
      startTracking env false = ⟨StartResult.denied, false, []⟩) := by
  by_cases hfg : env.fgStatus = grantedStatus <;>
    by_cases hbg : env.bgStatus = grantedStatus <;>
      by_cases hr : env.registrationOk = true <;>
        simp [startThenStatus, startTracking, requestPermissions, trackingStatus,
          hfg, hbg, hr]

/-- Claim C2 witness: the amended theorem at a run whose foreground
permission is refused. -/
theorem c2_witness :
    (startThenStatus
        ⟨"denied".data, grantedStatus, grantedStatus, grantedStatus, true, quietSync⟩
        false).1 = StartResult.denied ∧
    (startThenStatus
        ⟨"denied".data, grantedStatus, grantedStatus, grantedStatus, true, quietSync⟩
        false).2 = TrackStatus.unregistered := by
  have h := c2_amended_start_then_status
    ⟨"denied".data, grantedStatus, grantedStatus, grantedStatus, true, quietSync⟩
  have h2 := h.2 (by decide)
  exact ⟨h2.1, h2.2.1⟩

/-! ## Claim C5 -/

theorem chosenDeviceId_not_empty (env : RegEnv) (st : LocalStore) :
    (chosenDeviceId env st).isEmpty = false := by
  unfold chosenDeviceId
  cases st.device_id with
  | none => exact generatedDeviceId_not_empty env.now env.rand
  | some id =>
      cases hi : id.isEmpty <;> simp [hi]
      simpa using generatedDeviceId_not_empty env.now env.rand

theorem handleRegister_guard (env : RegEnv) (m : Mode)
    (hpid : m = Mode.child → (jsTrim env.parentDeviceId).isEmpty = false) :
    ¬(m = Mode.child ∧ (jsTrim env.parentDeviceId).isEmpty) := by
  rintro ⟨h1, h2⟩
  rw [hpid h1] at h2
  exact absurd h2 (by decide)

theorem chosenDeviceId_of_stored (env : RegEnv) (st : LocalStore) (id : Str)
    (h : st.device_id = some id) (hne : id ≠ []) : chosenDeviceId env st = id := by
  simp [chosenDeviceId, h, hne]

/-- For any validated inputs, the register request carries exactly the
chosen device id, the (untrimmed) device name, the mode string, and, for a
child, the trimmed parent id. -/
theorem handleRegister_request (env : RegEnv) (st : LocalStore) (m : Mode)
    (hm : env.selectedMode = some m)
    (hname : (jsTrim env.deviceName).isEmpty = false)
    (hpid : m = Mode.child → (jsTrim env.parentDeviceId).isEmpty = false) :
    (handleRegister env st).request =
      some ⟨chosenDeviceId env st, env.deviceName, modeStr m,
        if m = Mode.child then some (jsTrim env.parentDeviceId) else none⟩ := by
  unfold handleRegister
  rw [hm]
  simp only [hname, Bool.false_eq_true, if_false, handleRegister_guard env m hpid, if_false]
  cases env.registerOk <;> simp

/-- Claim C5: registration is atomic with respect to the local store.  On a
failing backend call, `device_mode`, `device_name` and `parent_device_id`
are unchanged while the chosen device id is persisted, and any retry (with
validated inputs and fresh random material) sends the same device id in its
request body; on a successful call the three keys are persisted. -/
theorem c5_registration_atomic (env : RegEnv) (st : LocalStore) (m : Mode)
    (hm : env.selectedMode = some m)
    (hname : (jsTrim env.deviceName).isEmpty = false)
    (hpid : m = Mode.child → (jsTrim env.parentDeviceId).isEmpty = false) :
    (env.registerOk = false →
      (handleRegister env st).outcome = RegOutcome.failure ∧
      (handleRegister env st).store.device_mode = st.device_mode ∧
      (handleRegister env st).store.device_name = st.device_name ∧
      (handleRegister env st).store.parent_device_id = st.parent_device_id ∧
      (handleRegister env st).store.device_id = some (chosenDeviceId env st) ∧
      (∀ env2 m2, env2.selectedMode = some m2 →
        (jsTrim env2.deviceName).isEmpty = false →
        (m2 = Mode.child → (jsTrim env2.parentDeviceId).isEmpty = false) →
        ∀ b, (handleRegister env2 (handleRegister env st).store).request = some b →
          b.device_id = chosenDeviceId env st)) ∧
    (env.registerOk = true →
      (handleRegister env st).outcome = RegOutcome.success ∧
      (handleRegister env st).store.device_mode = some (modeStr m) ∧
      (handleRegister env st).store.device_name = some env.deviceName ∧
      (m = Mode.child →
        (handleRegister env st).store.parent_device_id = some (jsTrim env.parentDeviceId))) := by
  have hpidn : m = Mode.child → jsTrim env.parentDeviceId ≠ [] := fun hc => by
    simpa using hpid hc
  constructor
  · intro hfail
    have hrun : handleRegister env st =
        ⟨RegOutcome.failure, { st with device_id := some (chosenDeviceId env st) },
         some ⟨chosenDeviceId env st, env.deviceName, modeStr m,
           if m = Mode.child then some (jsTrim env.parentDeviceId) else none⟩⟩ := by
      unfold handleRegister
      rw [hm]
      simp [hname, hfail]
      exact hpidn
    refine ⟨by rw [hrun], by rw [hrun], by rw [hrun], by rw [hrun], by rw [hrun], ?_⟩
    intro env2 m2 hm2 hname2 hpid2 b hb
    rw [handleRegister_request env2 (handleRegister env st).store m2 hm2 hname2 hpid2] at hb
    have hbid : b.device_id = chosenDeviceId env2 (handleRegister env st).store := by
      cases hb0 : b with
      | mk d n md p => rw [hb0] at hb; injection hb with hb; rw [← hb]
    rw [hbid, hrun]
    have hne : chosenDeviceId env st ≠ [] := by
      simpa using chosenDeviceId_not_empty env st
    exact chosenDeviceId_of_stored env2 _ _ rfl hne
  · intro hok
    have hrun : handleRegister env st =
        ⟨RegOutcome.success,
         { st with
             device_id := some (chosenDeviceId env st)
             device_mode := some (modeStr m)
             device_name := some env.deviceName
             parent_device_id :=
               if m = Mode.child then some (jsTrim env.parentDeviceId)
               else st.parent_device_id },
         some ⟨chosenDeviceId env st, env.deviceName, modeStr m,
           if m = Mode.child then some (jsTrim env.parentDeviceId) else none⟩⟩ := by
      unfold handleRegister
      rw [hm]
      simp [hname, hok]
      exact hpidn
    refine ⟨by rw [hrun], by rw [hrun], by rw [hrun], ?_⟩
    intro hchild
    rw [hrun]
    simp [hchild]

/-- A failing child registration attempt with no prior local state. -/
def c5_env : RegEnv :=
  ⟨some Mode.child, "My Phone".data, " parent123 ".data, "17".data, "abc".data, false⟩

def c5_st : LocalStore := ⟨none, none, none, none⟩

/-- Claim C5 witness: the atomicity theorem at a concrete failing child
registration from an empty store. -/
theorem c5_witness :
    (handleRegister c5_env c5_st).outcome = RegOutcome.failure ∧
    (handleRegister c5_env c5_st).store.device_mode = none ∧
    (handleRegister c5_env c5_st).store.parent_device_id = none ∧
    (handleRegister c5_env c5_st).store.device_id = some "device_17_abc".data := by
  have h := c5_registration_atomic c5_env c5_st Mode.child rfl (by decide) (fun _ => by decide)
  have h1 := h.1 rfl
  refine ⟨h1.1, ?_, ?_, ?_⟩
  · exact h1.2.1.trans rfl
  · exact h1.2.2.2.1.trans rfl
  · rw [h1.2.2.2.2.1]; decide

/-! ## Claim C6 -/

/-- Claim C6: refusal of the contacts or the media permission never aborts
`start()` — with both location permissions granted and a successful
registration, the result is `ok` and the task is registered, whatever the
contacts/media request statuses are (they do not occur in the gate) — and at
sync time a domain whose permission is not granted is skipped silently: it
emits no events at all (no upload, no error log), and `syncAllData` still
reports success. -/
theorem c6_contacts_media_best_effort (senv : StartEnv) (r : Bool) (env : SyncEnv) (id : Str) :
    (senv.fgStatus = grantedStatus → senv.bgStatus = grantedStatus →
      senv.registrationOk = true →
      (startTracking senv r).result = StartResult.ok ∧
      (startTracking senv r).registered = true) ∧
    (env.contactsPermStatus ≠ grantedStatus → syncContacts env id = []) ∧
    (env.mediaPermStatus ≠ grantedStatus → syncGalleryMetadata env id = []) ∧
    (env.storedDeviceId = some id → id.isEmpty = false →
      (syncAllData env).1 = SyncResult.success) := by
  refine ⟨?_, ?_, ?_, ?_⟩
  · intro hfg hbg hr
    simp [startTracking, requestPermissions, hfg, hbg, hr]
  · intro hp
    simp [syncContacts, hp]
  · intro hp
    simp [syncGalleryMetadata, hp]
  · intro hid hne
    rw [syncAllData_run env id hid hne]

/-- Claim C6 witness: contacts and media requests refused, location
permissions granted — tracking still starts; at sync time the denied
contacts domain emits nothing and the pass still succeeds. -/
theorem c6_witness :
    (startTracking
        ⟨grantedStatus, grantedStatus, "denied".data, "denied".data, true,
         ⟨some "dev6".data, "denied".data, [], true, "denied".data, [], true, none, true⟩⟩
        false).result = StartResult.ok ∧
    syncContacts
        ⟨some "dev6".data, "denied".data, [], true, "denied".data, [], true, none, true⟩
        "dev6".data = [] ∧
    (syncAllData
        ⟨some "dev6".data, "denied".data, [], true, "denied".data, [], true, none, true⟩).1 =
      SyncResult.success := by
  have h := c6_contacts_media_best_effort
    ⟨grantedStatus, grantedStatus, "denied".data, "denied".data, true,
     ⟨some "dev6".data, "denied".data, [], true, "denied".data, [], true, none, true⟩⟩
    false
    ⟨some "dev6".data, "denied".data, [], true, "denied".data, [], true, none, true⟩
    "dev6".data
  exact ⟨(h.1 rfl rfl rfl).1, h.2.1 (by decide), h.2.2.2 rfl (by decide)⟩

/-! ## Claim C7 -/

/-- Claim C7: with no persisted device id, `syncAllData` is a full no-op
(no domain sync attempted, no event emitted, the early-return path taken)
and the background firing handler (absent an OS error) silently does
nothing — no upload and no error log. -/
theorem c7_no_device_id_noop (env : SyncEnv) (benv : BgEnv)
    (hs : falsyStr env.storedDeviceId = true)
    (hb : benv.hasError = false)
    (hbid : falsyStr benv.storedDeviceId = true) :
    syncAllData env = (SyncResult.noDeviceId, []) ∧ backgroundTask benv = [] := by
  constructor
  · unfold syncAllData
    cases h : env.storedDeviceId with
    | none => rfl
    | some id =>
        rw [h] at hs
        simp [falsyStr] at hs
        simp [hs]
  · unfold backgroundTask
    rw [hb]
    cases hf : benv.fixes <;> simp [hbid]

/-- Claim C7 witness: the no-op theorem at a deregistered device (empty
stored id on the sync side, no stored id on a stale background firing with
one fix available). -/
theorem c7_witness :
    syncAllData ⟨some [], grantedStatus, [], true, grantedStatus, [], true, none, true⟩ =
      (SyncResult.noDeviceId, []) ∧
    backgroundTask ⟨false, some [⟨3, 4, none, none, none⟩], none, true⟩ = [] := by
  exact c7_no_device_id_noop
    ⟨some [], grantedStatus, [], true, grantedStatus, [], true, none, true⟩
    ⟨false, some [⟨3, 4, none, none, none⟩], none, true⟩
    (by decide) rfl (by decide)

/-! ## Claim C8 -/

/-- Claim C8: with the contacts permission granted, `syncContacts` issues
exactly one batch post, and that batch is the OS contact list mapped
record-for-record in input order; the mapping substitutes the literal
`Unknown` for an absent name and flattens the phone-number and email
multi-value fields into ordered string sequences. -/
theorem c8_contacts_batch (env : SyncEnv) (id : Str)
    (hp : env.contactsPermStatus = grantedStatus) :
    contactBatches (syncContacts env id) = [(id, env.contactsData.map mapContact)] ∧
    (env.contactsData.map mapContact).length = env.contactsData.length ∧
    (∀ i (hi : i < env.contactsData.length),
      (env.contactsData.map mapContact).get ⟨i, by simpa using hi⟩ =
        mapContact (env.contactsData.get ⟨i, hi⟩)) ∧
    (∀ c : OSContact, c.name = none → (mapContact c).name = "Unknown".data) ∧
    (∀ (c : OSContact) ps, c.phoneNumbers = some ps →
      (mapContact c).phoneNumbers = ps.map (fun p => jsOrStr p [])) ∧
    (∀ (c : OSContact) es, c.emails = some es →
      (mapContact c).emails = es.map (fun e => jsOrStr e [])) := by
  refine ⟨?_, by simp, ?_, ?_, ?_, ?_⟩
  · simp only [syncContacts, hp, if_pos]
    cases env.contactsUploadOk <;> simp [contactBatches]
  · intro i hi
    simp
  · intro c hc
    simp [mapContact, jsOrStr, hc]
  · intro c ps hc
    simp [mapContact, hc]
  · intro c es hc
    simp [mapContact, hc]

/-- A concrete three-contact environment; the second contact has an absent
name. -/
def c8_env : SyncEnv :=
  { storedDeviceId := some "dev8".data
    contactsPermStatus := grantedStatus
    contactsData :=
      [⟨"a".data, some "Alice".data, some [some "111".data, some "222".data],
        some [some "a at x".data]⟩,
       ⟨"b".data, none, some [none], none⟩,
       ⟨"c".data, some "Carol".data, none, some []⟩]
    contactsUploadOk := true
    mediaPermStatus := grantedStatus
    mediaAssets := []
    mediaUploadOk := true
    currentFix := none
    locationUploadOk := true }

/-- Claim C8 witness: the batch theorem at the three-contact environment;
the absent-name record is uploaded with the literal `Unknown` and the
flattened (single-`undefined`) phone-number list. -/
theorem c8_witness :
    contactBatches (syncContacts c8_env "dev8".data) =
      [("dev8".data, c8_env.contactsData.map mapContact)] ∧
    (mapContact ⟨"b".data, none, some [none], none⟩).name = "Unknown".data ∧
    (mapContact ⟨"b".data, none, some [none], none⟩).phoneNumbers = [[]] := by
  have h := c8_contacts_batch c8_env "dev8".data rfl
  refine ⟨h.1, h.2.2.2.1 _ rfl, ?_⟩
  rw [h.2.2.2.2.1 ⟨"b".data, none, some [none], none⟩ [none] rfl]
  decide

/-! ## Claim C9 -/

/-- Claim C9: within one `syncAllData` invocation the emitted events are the
contacts segment, then the media segment, then the location segment, in
that order (each domain's events are complete before the next domain's
begin), and the per-event domain indices along the whole trace are
monotone — the sequential, never-interleaved execution of the three
domains. -/
theorem c9_domains_sequential (env : SyncEnv) (id : Str)
    (hid : env.storedDeviceId = some id) (hne : id.isEmpty = false) :
    (syncAllData env).2 =
      syncContacts env id ++ syncGalleryMetadata env id ++ syncCurrentLocation env id ∧
    ((syncAllData env).2).Pairwise (fun a b => eventDomain a ≤ eventDomain b) := by
  have hall := syncAllData_run env id hid hne
  have htrace : (syncAllData env).2 =
      syncContacts env id ++ syncGalleryMetadata env id ++ syncCurrentLocation env id := by
    rw [hall]
  refine ⟨htrace, ?_⟩
  rw [htrace]
  have hc := syncContacts_domain env id
  have hg := syncGalleryMetadata_domain env id
  have hl := syncCurrentLocation_domain env id
  refine List.pairwise_append.mpr ⟨List.pairwise_append.mpr ⟨?_, ?_, ?_⟩, ?_, ?_⟩
  · have := pairwise_le_of_const eventDomain 0 (syncContacts env id) hc
    exact this
  · exact pairwise_le_of_const eventDomain 1 (syncGalleryMetadata env id) hg
  · intro a ha b hb
    rw [hc a ha, hg b hb]
    decide
  · exact pairwise_le_of_const eventDomain 2 (syncCurrentLocation env id) hl
  · intro a ha b hb
    rw [hl b hb]
    rcases List.mem_append.mp ha with h | h
    · rw [hc a h]; decide
    · rw [hg a h]; decide

/-- Claim C9 witness: the sequencing theorem at a concrete run in which all
three domains emit events. -/
theorem c9_witness :
    ((syncAllData
        ⟨some "dev9".data, grantedStatus, [], true, grantedStatus, [], false,
         some ⟨5, 6, none, none, none⟩, true⟩).2).Pairwise
      (fun a b => eventDomain a ≤ eventDomain b) := by
  exact (c9_domains_sequential
    ⟨some "dev9".data, grantedStatus, [], true, grantedStatus, [], false,
     some ⟨5, 6, none, none, none⟩, true⟩
    "dev9".data rfl (by decide)).2

/-! ## Claim C10 -/

/-- Claim C10: the parent gallery's `location` view is exactly the fetched
snapshot filtered to items whose latitude and longitude are both present and
nonzero (an item geotagged at latitude 0 or longitude 0 is excluded by the
truthiness test), kept in snapshot order (a sublist, not re-sorted); the
`date` view is a permutation of the snapshot whose creation-time keys
(absent counted as 0) are non-increasing, i.e. most recent first. -/
theorem c10_gallery_views (media : List MediaItem) :
    (∀ i, i ∈ getSortedMedia media SortMode.location ↔
      (i ∈ media ∧ truthyNum i.location_latitude = true ∧
        truthyNum i.location_longitude = true)) ∧
    (getSortedMedia media SortMode.location).Sublist media ∧
    (∀ i, i ∈ media →
      (i.location_latitude = some 0 ∨ i.location_latitude = none ∨
        i.location_longitude = some 0 ∨ i.location_longitude = none) →
      i ∉ getSortedMedia media SortMode.location) ∧
    (getSortedMedia media SortMode.date).Perm media ∧
    (getSortedMedia media SortMode.date).Pairwise
      (fun a b => mediaSortKey b ≤ mediaSortKey a) := by
  refine ⟨?_, ?_, ?_, ?_, ?_⟩
  · intro i
    simp [getSortedMedia, List.mem_filter, hasGeotag, Bool.and_eq_true, and_assoc]
  · exact List.filter_sublist media
  · intro i hi hz hmem
    have h2 := (List.mem_filter.mp hmem).2
    simp [hasGeotag, Bool.and_eq_true, truthyNum] at h2
    rcases hz with h | h | h | h <;> rw [h] at h2 <;> simp at h2
  · exact List.mergeSort_perm media _
  · have h := @List.sorted_mergeSort MediaItem
      (fun a b : MediaItem => decide (mediaSortKey b ≤ mediaSortKey a))
      (fun a b c hab hbc => by
        simp only [decide_eq_true_eq] at hab hbc ⊢
        omega)
      (fun a b => by
        simp only [Bool.or_eq_true, decide_eq_true_eq]
        omega)
      media
    refine List.Pairwise.imp ?_ h
    intro a b hab
    simpa using hab

/-- Claim C10 witness: the view theorem at a concrete snapshot — an item
geotagged at latitude 0 is excluded from the location view, a fully
geotagged item is kept, and the date view is a sorted permutation. -/
theorem c10_witness :
    let a : MediaItem := ⟨"a".data, "a.jpg".data, "photo".data, some 10, none, none,
      none, some 1, some 2⟩
    let b : MediaItem := ⟨"b".data, "b.jpg".data, "photo".data, some 20, none, none,
      none, some 0, some 2⟩
    (a ∈ getSortedMedia [a, b] SortMode.location) ∧
    (b ∉ getSortedMedia [a, b] SortMode.location) ∧
    (getSortedMedia [a, b] SortMode.date).Perm [a, b] := by
  intro a b
  have h := c10_gallery_views [a, b]
  refine ⟨(h.1 a).mpr ⟨by simp, by decide, by decide⟩, ?_, h.2.2.2.1⟩
  exact h.2.2.1 b (by simp) (Or.inl rfl)

end Frontend
